import Mathlib

/-!
Shallow embedding of the session cost ledger and circuit-breaker governor
from `app/middleware/cost_protection.py` (class `SessionCostTracker`).

Modelling choices:
* Monetary amounts and timestamps are rationals (`ℚ`); timestamps are
  seconds on an abstract clock, passed explicitly as `now` to each
  operation in place of `datetime.utcnow()`.
* Token counts are integers (`ℤ`), matching Python's unbounded ints.
* The per-session dictionaries (`session_costs`, `session_tokens`,
  `session_start_times`) are total functions `String → Option _`.
* Side effects on Prometheus metrics and Redis are modelled as an
  explicit list of `Effect` values returned next to the new state;
  fallible Redis calls are modelled by an `Except` variant that is
  caught exactly where the Python code has `try/except`.
-/

namespace CostProtection

/-- Configuration record mirroring `CostProtectionConfig` (the fields the
ledger logic reads). Rates are USD per one million tokens. -/
structure CostProtectionConfig where
  enabled : Bool
  max_session_cost_usd : ℚ
  max_session_duration_minutes : ℤ
  max_total_cost_per_hour_usd : ℚ
  circuit_breaker_threshold_usd : ℚ
  circuit_breaker_reset_minutes : ℤ
  gpt5_input_cost_per_1m : ℚ
  gpt5_output_cost_per_1m : ℚ
  gpt5_mini_input_cost_per_1m : ℚ
  gpt5_mini_output_cost_per_1m : ℚ
  gpt_realtime_input_cost_per_1m : ℚ
  gpt_realtime_output_cost_per_1m : ℚ
deriving DecidableEq

/-- Default configuration values of `CostProtectionConfig`. -/
def defaultConfig : CostProtectionConfig where
  enabled := true
  max_session_cost_usd := 5
  max_session_duration_minutes := 30
  max_total_cost_per_hour_usd := 50
  circuit_breaker_threshold_usd := 100
  circuit_breaker_reset_minutes := 60
  gpt5_input_cost_per_1m := 10
  gpt5_output_cost_per_1m := 30
  gpt5_mini_input_cost_per_1m := 3
  gpt5_mini_output_cost_per_1m := 15
  gpt_realtime_input_cost_per_1m := 100
  gpt_realtime_output_cost_per_1m := 200

/-- Mutable state of a `SessionCostTracker` instance. -/
structure TrackerState where
  session_costs : String → Option ℚ
  session_tokens : String → Option (ℤ × ℤ)
  session_start_times : String → Option ℚ
  circuit_breaker_active : Bool
  circuit_breaker_reset_time : Option ℚ

/-- State produced by `SessionCostTracker.__init__`: empty dictionaries,
breaker closed, no reset time. -/
def initState : TrackerState where
  session_costs := fun _ => none
  session_tokens := fun _ => none
  session_start_times := fun _ => none
  circuit_breaker_active := false
  circuit_breaker_reset_time := none

/-- Observable external effects (Prometheus metric updates, Redis calls)
emitted by the lifecycle operations. -/
inductive Effect where
  | gaugeInc
  | gaugeDec
  | durationObserve (seconds : ℚ)
  | redisHSet (key : String)
  | redisDelete (key : String)
deriving DecidableEq

/-- Pricing dispatch of `calculate_cost` lines 188-201: the if/elif chain
selecting `(input_cost_per_1m, output_cost_per_1m)`, with gpt-5-mini
rates as the fallback for unknown model names. -/
def modelRates (config : CostProtectionConfig) (model : String) : ℚ × ℚ :=
  if model = "gpt-5" then
    (config.gpt5_input_cost_per_1m, config.gpt5_output_cost_per_1m)
  else if model = "gpt-5-mini" then
    (config.gpt5_mini_input_cost_per_1m, config.gpt5_mini_output_cost_per_1m)
  else if model = "gpt-realtime" then
    (config.gpt_realtime_input_cost_per_1m, config.gpt_realtime_output_cost_per_1m)
  else
    (config.gpt5_mini_input_cost_per_1m, config.gpt5_mini_output_cost_per_1m)

/-- Translation of `SessionCostTracker.calculate_cost`. -/
def calculate_cost (config : CostProtectionConfig) (model : String)
    (input_tokens output_tokens : ℤ) : ℚ :=
  let rates := modelRates config model
  let input_cost := ((input_tokens : ℚ) / 1000000) * rates.1
  let output_cost := ((output_tokens : ℚ) / 1000000) * rates.2
  input_cost + output_cost

/-- Translation of `SessionCostTracker._get_warnings`. -/
def get_warnings (budget_ok duration_ok circuit_breaker_ok : Bool) : List String :=
  (if budget_ok then [] else ["Session budget limit exceeded"]) ++
  (if duration_ok then [] else ["Session duration limit exceeded"]) ++
  (if circuit_breaker_ok then [] else ["System-wide circuit breaker is active"])

/-- The dictionary returned by `check_budget`; the `budget_ok` field is
the overall verdict key `"budget_ok"` of the returned dict. -/
structure BudgetStatus where
  budget_ok : Bool
  remaining_budget_usd : ℚ
  remaining_duration_seconds : ℚ
  circuit_breaker_active : Bool
  warnings : List String
deriving DecidableEq

/-- Translation of `SessionCostTracker.check_budget`. -/
def check_budget (config : CostProtectionConfig) (now : ℚ) (s : TrackerState)
    (session_id : String) (current_cost : ℚ) : BudgetStatus :=
  let budget_ok : Bool := decide (current_cost < config.max_session_cost_usd)
  let remaining_budget := config.max_session_cost_usd - current_cost
  let max_duration_seconds : ℚ := (config.max_session_duration_minutes : ℚ) * 60
  let dpair : Bool × ℚ :=
    match s.session_start_times session_id with
    | some t0 =>
        let duration := now - t0
        (decide (duration < max_duration_seconds), max_duration_seconds - duration)
    | none => (true, max_duration_seconds)
  let circuit_breaker_ok : Bool := !s.circuit_breaker_active
  let overall_ok : Bool := budget_ok && dpair.1 && circuit_breaker_ok
  { budget_ok := overall_ok
    remaining_budget_usd := max 0 remaining_budget
    remaining_duration_seconds := max 0 dpair.2
    circuit_breaker_active := s.circuit_breaker_active
    warnings := get_warnings budget_ok dpair.1 circuit_breaker_ok }

/-- The dictionary returned by `track_usage` (`budget_status` fields are
spliced in via the nested `status`). -/
structure UsageResult where
  session_id : String
  model : String
  input_tokens : ℤ
  output_tokens : ℤ
  call_cost : ℚ
  session_cost : ℚ
  status : BudgetStatus
deriving DecidableEq

/-- Translation of `SessionCostTracker.track_usage`, split into the
state mutation (lines 230-239, which the code performs before any
metric call can raise) and the dict the call returns when it completes.
The raising path of the real call — `Counter.inc` raises `ValueError`
on a negative amount at lines 242-244, outside any `try/except` — is
modelled by `track_usageRun`, whose state component always agrees with
this function's. -/
def track_usage (config : CostProtectionConfig) (now : ℚ) (s : TrackerState)
    (session_id model : String) (input_tokens output_tokens : ℤ) :
    TrackerState × UsageResult :=
  let cost := calculate_cost config model input_tokens output_tokens
  let current_cost := (s.session_costs session_id).getD 0
  let new_cost := current_cost + cost
  let toks := (s.session_tokens session_id).getD (0, 0)
  let s' : TrackerState :=
    { s with
      session_costs := fun k => if k = session_id then some new_cost else s.session_costs k
      session_tokens := fun k =>
        if k = session_id then some (toks.1 + input_tokens, toks.2 + output_tokens)
        else s.session_tokens k }
  let status := check_budget config now s' session_id new_cost
  (s', { session_id := session_id, model := model, input_tokens := input_tokens,
         output_tokens := output_tokens, call_cost := cost, session_cost := new_cost,
         status := status })

/-- Outcome of one Redis call: `.ok` when the store answered, `.error`
when the client raised. -/
def redisCall (redisOk : Bool) : Except String Unit :=
  if redisOk then Except.ok () else Except.error "redis failure"

/-- A `try/except Exception: logger.error(...)` block around a Redis
call: any error is caught and swallowed. -/
def caught (x : Except String Unit) : Except String Unit :=
  match x with
  | Except.ok u => Except.ok u
  | Except.error _ => Except.ok ()

/-- A prometheus `Counter.inc(amount)` call: raises `ValueError` when
the amount is negative, otherwise succeeds. -/
def counterInc (amount : ℚ) : Except String Unit :=
  if amount < 0 then
    Except.error "ValueError: Counters can only be incremented by non-negative amounts."
  else Except.ok ()

/-- Translation of the full `SessionCostTracker.track_usage` body with
every fallible call explicit, in source order: the ledger mutation
(lines 230-239), then the three uncaught `Counter.inc` metric calls
(line 242 with the signed cost, lines 243-244 with the token counts) —
each of which raises on a negative amount — then the Redis mirror
write inside `caught` (the `try/except` of lines 246-253, with
`hasRedis` whether a client is configured and `redisOk` whether the
call succeeds), then `check_budget` and the returned dict. The first
component is the tracker state as the call leaves it, mutated even
when a metric call raises; the second is the returned dict, or the
propagated error when the call raises and returns nothing. -/
def track_usageRun (config : CostProtectionConfig) (now : ℚ) (hasRedis redisOk : Bool)
    (s : TrackerState) (session_id model : String) (input_tokens output_tokens : ℤ) :
    TrackerState × Except String UsageResult :=
  let cost := calculate_cost config model input_tokens output_tokens
  let current_cost := (s.session_costs session_id).getD 0
  let new_cost := current_cost + cost
  let toks := (s.session_tokens session_id).getD (0, 0)
  let s' : TrackerState :=
    { s with
      session_costs := fun k => if k = session_id then some new_cost else s.session_costs k
      session_tokens := fun k =>
        if k = session_id then some (toks.1 + input_tokens, toks.2 + output_tokens)
        else s.session_tokens k }
  match counterInc cost with
  | Except.error e => (s', Except.error e)
  | Except.ok _ =>
    match counterInc (input_tokens : ℚ) with
    | Except.error e => (s', Except.error e)
    | Except.ok _ =>
      match counterInc (output_tokens : ℚ) with
      | Except.error e => (s', Except.error e)
      | Except.ok _ =>
        match caught (if hasRedis then redisCall redisOk else Except.ok ()) with
        | Except.error e => (s', Except.error e)
        | Except.ok _ =>
          let status := check_budget config now s' session_id new_cost
          (s', Except.ok
            { session_id := session_id, model := model, input_tokens := input_tokens,
              output_tokens := output_tokens, call_cost := cost, session_cost := new_cost,
              status := status })

/-- Translation of `SessionCostTracker.start_session`: records the start
time and a zero cost, increments the active-session gauge and mirrors
the fresh entry to Redis when a client is configured. -/
def start_session (now : ℚ) (hasRedis : Bool) (s : TrackerState)
    (session_id : String) : TrackerState × List Effect :=
  ({ s with
      session_start_times := fun k => if k = session_id then some now else s.session_start_times k
      session_costs := fun k => if k = session_id then some 0 else s.session_costs k },
   [Effect.gaugeInc] ++ (if hasRedis then [Effect.redisHSet session_id] else []))

/-- Translation of `SessionCostTracker.end_session`: the whole body is
guarded by `if session_id in self.session_start_times`, so an unknown id
leaves the state untouched and emits nothing. -/
def end_session (now : ℚ) (hasRedis : Bool) (s : TrackerState)
    (session_id : String) : TrackerState × List Effect :=
  match s.session_start_times session_id with
  | none => (s, [])
  | some t0 =>
      ({ s with
          session_start_times := fun k => if k = session_id then none else s.session_start_times k
          session_costs := fun k => if k = session_id then none else s.session_costs k
          session_tokens := fun k => if k = session_id then none else s.session_tokens k },
       [Effect.durationObserve (now - t0), Effect.gaugeDec] ++
         (if hasRedis then [Effect.redisDelete session_id] else []))

/-- Translation of `SessionCostTracker.activate_circuit_breaker`. -/
def activate_circuit_breaker (config : CostProtectionConfig) (now : ℚ)
    (s : TrackerState) : TrackerState :=
  { s with
      circuit_breaker_active := true
      circuit_breaker_reset_time :=
        some (now + (config.circuit_breaker_reset_minutes : ℚ) * 60) }

/-- Translation of `SessionCostTracker.check_circuit_breaker` (the
polled reset). -/
def check_circuit_breaker (now : ℚ) (s : TrackerState) : TrackerState :=
  if s.circuit_breaker_active then
    match s.circuit_breaker_reset_time with
    | some t =>
        if t ≤ now then
          { s with circuit_breaker_active := false, circuit_breaker_reset_time := none }
        else s
    | none => s
  else s

/-- Spec-side Pricing Table (for the refinement claim about
`calculate_cost`): a static mapping from model identifier to
(input-rate, output-rate) per million units. -/
def spec_pricingTable (config : CostProtectionConfig) : List (String × (ℚ × ℚ)) :=
  [("gpt-5", (config.gpt5_input_cost_per_1m, config.gpt5_output_cost_per_1m)),
   ("gpt-5-mini", (config.gpt5_mini_input_cost_per_1m, config.gpt5_mini_output_cost_per_1m)),
   ("gpt-realtime", (config.gpt_realtime_input_cost_per_1m, config.gpt_realtime_output_cost_per_1m))]

/-- Spec-side fallback Pricing Entry used when `model_id` has no exact
match (the gpt-5-mini rates). -/
def spec_fallbackRates (config : CostProtectionConfig) : ℚ × ℚ :=
  (config.gpt5_mini_input_cost_per_1m, config.gpt5_mini_output_cost_per_1m)

/-- Spec-side rate lookup: the matched Pricing Entry, or the fallback
entry if the model id is unrecognized. -/
def spec_pricingEntry (config : CostProtectionConfig) (model : String) : ℚ × ℚ :=
  ((spec_pricingTable config).lookup model).getD (spec_fallbackRates config)

/-- The source's if/elif pricing dispatch agrees with the spec-side
table lookup with fallback. -/
theorem modelRates_eq_spec (config : CostProtectionConfig) (model : String) :
    modelRates config model = spec_pricingEntry config model := by
  unfold modelRates spec_pricingEntry spec_pricingTable spec_fallbackRates
  by_cases h5 : model = "gpt-5"
  · simp [List.lookup, h5]
  · by_cases hm : model = "gpt-5-mini"
    · simp [List.lookup, h5, hm]
    · by_cases hr : model = "gpt-realtime"
      · simp [List.lookup, h5, hm, hr]
      · have b5 : (model == "gpt-5") = false := beq_eq_false_iff_ne.mpr h5
        have bm : (model == "gpt-5-mini") = false := beq_eq_false_iff_ne.mpr hm
        have br : (model == "gpt-realtime") = false := beq_eq_false_iff_ne.mpr hr
        simp [List.lookup, h5, hm, hr, b5, bm, br]

/-- C2: for every model id with a configured pricing entry (or the
fallback entry when unrecognized) and all non-negative token counts,
`calculate_cost` returns `(input_units / 1_000_000) * input_rate +
(output_units / 1_000_000) * output_rate` over the matched Pricing
Entry; in particular `calculate_cost "gpt-5" 100000 200000` with the
default rates (10, 30) per million is exactly 7. -/
theorem calculate_cost_formula_spec (config : CostProtectionConfig) (model : String)
    (input_tokens output_tokens : ℤ)
    (_hi : 0 ≤ input_tokens) (_ho : 0 ≤ output_tokens) :
    calculate_cost config model input_tokens output_tokens
      = ((input_tokens : ℚ) / 1000000) * (spec_pricingEntry config model).1
        + ((output_tokens : ℚ) / 1000000) * (spec_pricingEntry config model).2
    ∧ calculate_cost defaultConfig "gpt-5" 100000 200000 = 7 := by
  constructor
  · unfold calculate_cost
    rw [modelRates_eq_spec]
  · norm_num [calculate_cost, modelRates, defaultConfig]

/-- Witness for C2 at `("gpt-5", 100000, 200000)` with both
non-negativity hypotheses discharged. -/
theorem calculate_cost_formula_spec_witness :
    calculate_cost defaultConfig "gpt-5" 100000 200000
      = (((100000 : ℤ) : ℚ) / 1000000) * (spec_pricingEntry defaultConfig "gpt-5").1
        + (((200000 : ℤ) : ℚ) / 1000000) * (spec_pricingEntry defaultConfig "gpt-5").2
    ∧ calculate_cost defaultConfig "gpt-5" 100000 200000 = 7 :=
  calculate_cost_formula_spec defaultConfig "gpt-5" 100000 200000 (by decide) (by decide)

/-- C1: `check_budget` returns as overall verdict the logical AND of
three predicates — cost strictly below `max_session_cost_usd`, elapsed
duration strictly below the duration cap (equality with either cap
fails), breaker not active; a session id with no recorded start time
passes the duration predicate with the full (clamped) max duration as
remaining; and the reported remaining budget and remaining duration are
clamped below at zero. -/
theorem check_budget_spec (config : CostProtectionConfig) (now : ℚ) (s : TrackerState)
    (session_id : String) (current_cost : ℚ) :
    ((check_budget config now s session_id current_cost).budget_ok = true ↔
      (current_cost < config.max_session_cost_usd ∧
       (∀ t0 : ℚ, s.session_start_times session_id = some t0 →
          now - t0 < (config.max_session_duration_minutes : ℚ) * 60) ∧
       s.circuit_breaker_active = false)) ∧
    (check_budget config now s session_id current_cost).remaining_budget_usd
      = max 0 (config.max_session_cost_usd - current_cost) ∧
    (s.session_start_times session_id = none →
      (check_budget config now s session_id current_cost).remaining_duration_seconds
        = max 0 ((config.max_session_duration_minutes : ℚ) * 60)) ∧
    (∀ t0 : ℚ, s.session_start_times session_id = some t0 →
      (check_budget config now s session_id current_cost).remaining_duration_seconds
        = max 0 ((config.max_session_duration_minutes : ℚ) * 60 - (now - t0))) := by
  unfold check_budget
  cases h : s.session_start_times session_id with
  | none =>
      simp [h, Bool.and_eq_true, decide_eq_true_eq, Bool.not_eq_true']
  | some t0 =>
      simp [h, Bool.and_eq_true, decide_eq_true_eq, Bool.not_eq_true', and_assoc]

/-- Witness for C1: in the fresh state, a current cost exactly equal to
the default 5 USD cap fails admission (equality with the cap is a
failure). -/
theorem check_budget_spec_witness :
    (check_budget defaultConfig 0 initState "session" 5).budget_ok = false := by
  have h := (check_budget_spec defaultConfig 0 initState "session" 5).1
  cases hb : (check_budget defaultConfig 0 initState "session" 5).budget_ok with
  | false => rfl
  | true => exact absurd (h.mp hb).1 (by norm_num [defaultConfig])

/-- C7 counterexample: the code does not treat negative token counts as
zero cost. At `("gpt-5", -1000000, 0)` with default rates the cost is
-10: it is negative, and differs from the cost at the clamped inputs
`(max (-1000000) 0, max 0 0) = (0, 0)`, which is 0. -/
theorem calculate_cost_negative_counterexample :
    calculate_cost defaultConfig "gpt-5" (-1000000) 0 = -10
    ∧ calculate_cost defaultConfig "gpt-5" (-1000000) 0 < 0
    ∧ calculate_cost defaultConfig "gpt-5" (-1000000) 0
        ≠ calculate_cost defaultConfig "gpt-5" (max (-1000000) 0) (max 0 0) := by
  norm_num [calculate_cost, modelRates, defaultConfig]

/-- C7 amended: negative token counts are not clamped and nothing is
raised (the cost function is total); a negative count contributes its
pro-rata cost with negative sign, so the result is the cost at the
clamped inputs plus the (non-positive) contribution of the negative
parts, and can itself be negative. -/
theorem calculate_cost_negative_amended (config : CostProtectionConfig) (model : String)
    (input_tokens output_tokens : ℤ) :
    calculate_cost config model input_tokens output_tokens
      = calculate_cost config model (max input_tokens 0) (max output_tokens 0)
        + ((min input_tokens 0 : ℤ) : ℚ) / 1000000 * (modelRates config model).1
        + ((min output_tokens 0 : ℤ) : ℚ) / 1000000 * (modelRates config model).2 := by
  unfold calculate_cost
  have hi : ((max input_tokens 0 : ℤ) : ℚ) + ((min input_tokens 0 : ℤ) : ℚ)
      = (input_tokens : ℚ) := by
    rw [← Int.cast_add, max_add_min, add_zero]
  have ho : ((max output_tokens 0 : ℤ) : ℚ) + ((min output_tokens 0 : ℤ) : ℚ)
      = (output_tokens : ℚ) := by
    rw [← Int.cast_add, max_add_min, add_zero]
  rw [← hi, ← ho]
  ring

/-- C8: for a model id matching none of the three configured entries,
`calculate_cost` is total (never raises) and deterministically uses the
single fallback entry: its result is the fallback-rate formula, the
spec-side table lookup misses, and the result coincides with the cost
of the fallback model `gpt-5-mini`. -/
theorem calculate_cost_fallback_spec (config : CostProtectionConfig) (model : String)
    (input_tokens output_tokens : ℤ)
    (h5 : model ≠ "gpt-5") (hm : model ≠ "gpt-5-mini") (hr : model ≠ "gpt-realtime") :
    calculate_cost config model input_tokens output_tokens
      = ((input_tokens : ℚ) / 1000000) * config.gpt5_mini_input_cost_per_1m
        + ((output_tokens : ℚ) / 1000000) * config.gpt5_mini_output_cost_per_1m
    ∧ (spec_pricingTable config).lookup model = none
    ∧ calculate_cost config model input_tokens output_tokens
        = calculate_cost config "gpt-5-mini" input_tokens output_tokens := by
  have hrates : modelRates config model
      = (config.gpt5_mini_input_cost_per_1m, config.gpt5_mini_output_cost_per_1m) := by
    simp [modelRates, h5, hm, hr]
  have b5 : (model == "gpt-5") = false := beq_eq_false_iff_ne.mpr h5
  have bm : (model == "gpt-5-mini") = false := beq_eq_false_iff_ne.mpr hm
  have br : (model == "gpt-realtime") = false := beq_eq_false_iff_ne.mpr hr
  refine ⟨?_, ?_, ?_⟩
  · simp [calculate_cost, hrates]
  · simp [spec_pricingTable, List.lookup, b5, bm, br]
  · have h2 : modelRates config "gpt-5-mini"
        = (config.gpt5_mini_input_cost_per_1m, config.gpt5_mini_output_cost_per_1m) := by
      simp [modelRates]
    simp [calculate_cost, hrates, h2]

/-- Witness for C8 at the unrecognized model id `"unknown-model"`. -/
theorem calculate_cost_fallback_spec_witness :
    calculate_cost defaultConfig "unknown-model" 100000 100000
      = (((100000 : ℤ) : ℚ) / 1000000) * defaultConfig.gpt5_mini_input_cost_per_1m
        + (((100000 : ℤ) : ℚ) / 1000000) * defaultConfig.gpt5_mini_output_cost_per_1m
    ∧ (spec_pricingTable defaultConfig).lookup "unknown-model" = none
    ∧ calculate_cost defaultConfig "unknown-model" 100000 100000
        = calculate_cost defaultConfig "gpt-5-mini" 100000 100000 :=
  calculate_cost_fallback_spec defaultConfig "unknown-model" 100000 100000
    (by decide) (by decide) (by decide)

/-- C10: `end_session` on a session id with no recorded start time is a
no-op: the state is returned unchanged and no effect is emitted (no
gauge decrement, no duration observation, no Redis deletion); being a
total function, it raises nothing. -/
theorem end_session_unknown_noop (now : ℚ) (hasRedis : Bool) (s : TrackerState)
    (session_id : String) (h : s.session_start_times session_id = none) :
    end_session now hasRedis s session_id = (s, []) := by
  unfold end_session
  rw [h]

/-- Witness for C10: ending the never-started session `"s"` in the
initial state changes nothing and emits nothing. -/
theorem end_session_unknown_noop_witness :
    end_session 0 true initState "s" = (initState, []) :=
  end_session_unknown_noop 0 true initState "s" rfl

/-- The result of `track_usage` depends only on the tracked session's
own ledger entries and the breaker flag. -/
theorem track_usage_result_congr (config : CostProtectionConfig) (now : ℚ)
    (s t : TrackerState) (session_id model : String) (input_tokens output_tokens : ℤ)
    (h1 : s.session_costs session_id = t.session_costs session_id)
    (h2 : s.session_tokens session_id = t.session_tokens session_id)
    (h3 : s.session_start_times session_id = t.session_start_times session_id)
    (h4 : s.circuit_breaker_active = t.circuit_breaker_active) :
    (track_usage config now s session_id model input_tokens output_tokens).2
      = (track_usage config now t session_id model input_tokens output_tokens).2 := by
  simp only [track_usage, check_budget, h1, h2, h3, h4]

/-- C9: a `track_usage` call for one session id leaves a distinct
session id's ledger entries (cumulative cost, token counters, start
time) unchanged, and the result a subsequent `track_usage` call returns
for the second id is the same as if the first call had never happened
(the breaker is untouched by `track_usage`). -/
theorem track_usage_isolation (config : CostProtectionConfig) (now now2 : ℚ)
    (s : TrackerState) (id1 id2 model model2 : String)
    (input_tokens output_tokens input_tokens2 output_tokens2 : ℤ)
    (h : id1 ≠ id2) :
    ((track_usage config now s id1 model input_tokens output_tokens).1.session_costs id2
       = s.session_costs id2) ∧
    ((track_usage config now s id1 model input_tokens output_tokens).1.session_tokens id2
       = s.session_tokens id2) ∧
    ((track_usage config now s id1 model input_tokens output_tokens).1.session_start_times id2
       = s.session_start_times id2) ∧
    ((track_usage config now s id1 model input_tokens output_tokens).1.circuit_breaker_active
       = s.circuit_breaker_active) ∧
    (track_usage config now2 (track_usage config now s id1 model input_tokens output_tokens).1
        id2 model2 input_tokens2 output_tokens2).2
      = (track_usage config now2 s id2 model2 input_tokens2 output_tokens2).2 := by
  have hne : ¬ id2 = id1 := fun e => h e.symm
  refine ⟨?_, ?_, ?_, ?_, ?_⟩
  · simp [track_usage, hne]
  · simp [track_usage, hne]
  · rfl
  · rfl
  · apply track_usage_result_congr
    · simp [track_usage, hne]
    · simp [track_usage, hne]
    · rfl
    · rfl

/-- Witness for C9 at the distinct ids `"a"` and `"b"`. -/
theorem track_usage_isolation_witness :
    ((track_usage defaultConfig 0 initState "a" "gpt-5" 1000 2000).1.session_costs "b"
       = initState.session_costs "b") ∧
    ((track_usage defaultConfig 0 initState "a" "gpt-5" 1000 2000).1.session_tokens "b"
       = initState.session_tokens "b") ∧
    ((track_usage defaultConfig 0 initState "a" "gpt-5" 1000 2000).1.session_start_times "b"
       = initState.session_start_times "b") ∧
    ((track_usage defaultConfig 0 initState "a" "gpt-5" 1000 2000).1.circuit_breaker_active
       = initState.circuit_breaker_active) ∧
    (track_usage defaultConfig 1 (track_usage defaultConfig 0 initState "a" "gpt-5" 1000 2000).1
        "b" "gpt-5-mini" 300 400).2
      = (track_usage defaultConfig 1 initState "b" "gpt-5-mini" 300 400).2 :=
  track_usage_isolation defaultConfig 0 1 initState "a" "b" "gpt-5" "gpt-5-mini"
    1000 2000 300 400 (by decide)

/-- Operations of the tracker, each carrying the clock value at which
it runs. -/
inductive Op where
  | start (now : ℚ) (id : String)
  | track (now : ℚ) (id model : String) (input_tokens output_tokens : ℤ)
  | finish (now : ℚ) (id : String)
  | activate (now : ℚ)
  | poll (now : ℚ)

/-- State transition of one operation (`finish` is `end_session`,
`poll` is `check_circuit_breaker`). -/
def step (config : CostProtectionConfig) (s : TrackerState) : Op → TrackerState
  | Op.start now id => (start_session now true s id).1
  | Op.track now id model i o => (track_usage config now s id model i o).1
  | Op.finish now id => (end_session now true s id).1
  | Op.activate now => activate_circuit_breaker config now s
  | Op.poll now => check_circuit_breaker now s

/-- Run a list of operations from a state. -/
def run (config : CostProtectionConfig) (s : TrackerState) (ops : List Op) : TrackerState :=
  ops.foldl (step config) s

/-- The circuit-breaker invariant: an inactive breaker has no reset
time, an active breaker has one. -/
def CBInv (s : TrackerState) : Prop :=
  (s.circuit_breaker_active = false → s.circuit_breaker_reset_time = none) ∧
  (s.circuit_breaker_active = true → s.circuit_breaker_reset_time ≠ none)

/-- C4: the breaker invariant `active = false → reset_at = none` holds
initially and after every operation; `activate_circuit_breaker` sets
`active = true` and `reset_at = now + cooldown` from any state (so
re-activating while open replaces the window, last-writer-wins, no
stacking); the polled `check_circuit_breaker` leaves the breaker
cleared exactly when it was already inactive or the reset time has
passed, and clears an active breaker precisely by the `now ≥ reset_at`
test; and no other operation (`start_session`, `track_usage`,
`end_session`) changes either breaker field. -/
theorem circuit_breaker_spec (config : CostProtectionConfig) :
    CBInv initState ∧
    (∀ (s : TrackerState) (op : Op), CBInv s → CBInv (step config s op)) ∧
    (∀ (now : ℚ) (s : TrackerState),
      (activate_circuit_breaker config now s).circuit_breaker_active = true ∧
      (activate_circuit_breaker config now s).circuit_breaker_reset_time
        = some (now + (config.circuit_breaker_reset_minutes : ℚ) * 60)) ∧
    (∀ (now : ℚ) (s : TrackerState), CBInv s →
      (((check_circuit_breaker now s).circuit_breaker_active = false ∧
        (check_circuit_breaker now s).circuit_breaker_reset_time = none) ↔
       (s.circuit_breaker_active = false ∨
        ∃ t : ℚ, s.circuit_breaker_reset_time = some t ∧ t ≤ now))) ∧
    (∀ (now : ℚ) (s : TrackerState) (id : String),
      (start_session now true s id).1.circuit_breaker_active = s.circuit_breaker_active ∧
      (start_session now true s id).1.circuit_breaker_reset_time
        = s.circuit_breaker_reset_time) ∧
    (∀ (now : ℚ) (s : TrackerState) (id model : String) (i o : ℤ),
      (track_usage config now s id model i o).1.circuit_breaker_active
        = s.circuit_breaker_active ∧
      (track_usage config now s id model i o).1.circuit_breaker_reset_time
        = s.circuit_breaker_reset_time) ∧
    (∀ (now : ℚ) (s : TrackerState) (id : String),
      (end_session now true s id).1.circuit_breaker_active = s.circuit_breaker_active ∧
      (end_session now true s id).1.circuit_breaker_reset_time
        = s.circuit_breaker_reset_time) := by
  have hfinish : ∀ (now : ℚ) (hasRedis : Bool) (s : TrackerState) (id : String),
      (end_session now hasRedis s id).1.circuit_breaker_active = s.circuit_breaker_active ∧
      (end_session now hasRedis s id).1.circuit_breaker_reset_time
        = s.circuit_breaker_reset_time := by
    intro now hasRedis s id
    unfold end_session
    cases s.session_start_times id <;> exact ⟨rfl, rfl⟩
  have hpoll : ∀ (now : ℚ) (s : TrackerState), CBInv s → CBInv (check_circuit_breaker now s) := by
    intro now s hs
    unfold check_circuit_breaker
    cases ha : s.circuit_breaker_active with
    | false => simpa [ha] using hs
    | true =>
        cases hr : s.circuit_breaker_reset_time with
        | none => simpa [ha, hr] using hs
        | some t =>
            by_cases hle : t ≤ now
            · simp [ha, hr, hle, CBInv]
            · simpa [ha, hr, hle] using hs
  refine ⟨?_, ?_, ?_, ?_, ?_, ?_, ?_⟩
  · exact ⟨fun _ => rfl, fun hh => by simp [initState] at hh⟩
  · intro s op hs
    cases op with
    | start now id => exact hs
    | track now id model i o => exact hs
    | finish now id =>
        have h := hfinish now true s id
        exact ⟨fun e => h.2.trans (hs.1 (h.1.symm.trans e)),
               fun e => h.2.symm ▸ hs.2 (h.1.symm.trans e)⟩
    | activate now =>
        refine ⟨fun e => ?_, fun _ => ?_⟩
        · simp [step, activate_circuit_breaker] at e
        · simp [step, activate_circuit_breaker]
    | poll now => exact hpoll now s hs
  · intro now s
    exact ⟨rfl, rfl⟩
  · intro now s hs
    unfold check_circuit_breaker
    cases ha : s.circuit_breaker_active with
    | false => simp [ha, hs.1 ha]
    | true =>
        cases hr : s.circuit_breaker_reset_time with
        | none => exact absurd hr (hs.2 ha)
        | some t =>
            by_cases hle : t ≤ now
            · simp [ha, hr, hle]
            · simp [ha, hr, hle]
  · intro now s id
    exact ⟨rfl, rfl⟩
  · intro now s id model i o
    exact ⟨rfl, rfl⟩
  · intro now s id
    exact hfinish now true s id

/-- Witness for C4: activating the breaker from the fresh state yields
a state that still satisfies the breaker invariant. -/
theorem circuit_breaker_spec_witness :
    CBInv (step defaultConfig initState (Op.activate 0)) :=
  (circuit_breaker_spec defaultConfig).2.1 initState (Op.activate 0)
    (by simp [CBInv, initState])

/-- One usage event of a session: clock value, model, token counts. -/
structure TrackEvent where
  now : ℚ
  model : String
  input_tokens : ℤ
  output_tokens : ℤ

/-- All configured per-million rates are non-negative (true of the
defaults and of any sane pricing configuration). -/
def NonnegRates (config : CostProtectionConfig) : Prop :=
  0 ≤ config.gpt5_input_cost_per_1m ∧ 0 ≤ config.gpt5_output_cost_per_1m ∧
  0 ≤ config.gpt5_mini_input_cost_per_1m ∧ 0 ≤ config.gpt5_mini_output_cost_per_1m ∧
  0 ≤ config.gpt_realtime_input_cost_per_1m ∧ 0 ≤ config.gpt_realtime_output_cost_per_1m

/-- The sequence of results a session sees from consecutive
`track_usage` calls. -/
def trackResults (config : CostProtectionConfig) (session_id : String) :
    TrackerState → List TrackEvent → List UsageResult
  | _, [] => []
  | s, e :: rest =>
      let p := track_usage config e.now s session_id e.model e.input_tokens e.output_tokens
      p.2 :: trackResults config session_id p.1 rest

/-- The sequence of outcomes (returned dict, or propagated error) a
session sees from consecutive calls of the fallible `track_usageRun`,
each call starting from the state the previous one left behind. -/
def trackResultsRun (config : CostProtectionConfig) (hasRedis redisOk : Bool)
    (session_id : String) :
    TrackerState → List TrackEvent → List (Except String UsageResult)
  | _, [] => []
  | s, e :: rest =>
      let p := track_usageRun config e.now hasRedis redisOk s session_id e.model
        e.input_tokens e.output_tokens
      p.2 :: trackResultsRun config hasRedis redisOk session_id p.1 rest

theorem modelRates_nonneg (config : CostProtectionConfig) (h : NonnegRates config)
    (model : String) :
    0 ≤ (modelRates config model).1 ∧ 0 ≤ (modelRates config model).2 := by
  obtain ⟨h1, h2, h3, h4, h5, h6⟩ := h
  unfold modelRates
  split_ifs <;> exact ⟨by assumption, by assumption⟩

theorem calculate_cost_nonneg (config : CostProtectionConfig) (h : NonnegRates config)
    (model : String) (input_tokens output_tokens : ℤ)
    (hi : 0 ≤ input_tokens) (ho : 0 ≤ output_tokens) :
    0 ≤ calculate_cost config model input_tokens output_tokens := by
  have hr := modelRates_nonneg config h model
  have hi' : (0 : ℚ) ≤ (input_tokens : ℚ) := by exact_mod_cast hi
  have ho' : (0 : ℚ) ≤ (output_tokens : ℚ) := by exact_mod_cast ho
  unfold calculate_cost
  have t1 : (0 : ℚ) ≤ (input_tokens : ℚ) / 1000000 * (modelRates config model).1 :=
    mul_nonneg (div_nonneg hi' (by norm_num)) hr.1
  have t2 : (0 : ℚ) ≤ (output_tokens : ℚ) / 1000000 * (modelRates config model).2 :=
    mul_nonneg (div_nonneg ho' (by norm_num)) hr.2
  exact add_nonneg t1 t2

/-- When the call cost and both token counts are non-negative, none of
the three `Counter.inc` calls raises, the caught Redis write cannot
propagate an error, and `track_usageRun` completes: it leaves exactly
the state of the pure `track_usage` and returns its dict. -/
theorem track_usageRun_ok (config : CostProtectionConfig) (hc : NonnegRates config)
    (now : ℚ) (hasRedis redisOk : Bool) (s : TrackerState) (session_id model : String)
    (input_tokens output_tokens : ℤ) (hi : 0 ≤ input_tokens) (ho : 0 ≤ output_tokens) :
    track_usageRun config now hasRedis redisOk s session_id model input_tokens output_tokens
      = ((track_usage config now s session_id model input_tokens output_tokens).1,
         Except.ok (track_usage config now s session_id model input_tokens
           output_tokens).2) := by
  have hcost : ¬ calculate_cost config model input_tokens output_tokens < 0 :=
    not_lt.mpr (calculate_cost_nonneg config hc model input_tokens output_tokens hi ho)
  have hi' : ¬ ((input_tokens : ℚ) < 0) := not_lt.mpr (by exact_mod_cast hi)
  have ho' : ¬ ((output_tokens : ℚ) < 0) := not_lt.mpr (by exact_mod_cast ho)
  cases hasRedis <;> cases redisOk <;>
    simp [track_usageRun, track_usage, counterInc, caught, redisCall, hcost, hi', ho']

/-- Over a history of events with non-negative token counts (and
non-negative rates), the fallible run raises nowhere: it returns
`Except.ok` of exactly the pure result sequence. -/
theorem trackResultsRun_eq (config : CostProtectionConfig) (hc : NonnegRates config)
    (hasRedis redisOk : Bool) (session_id : String) :
    ∀ (events : List TrackEvent) (s : TrackerState),
      (∀ e ∈ events, 0 ≤ e.input_tokens ∧ 0 ≤ e.output_tokens) →
      trackResultsRun config hasRedis redisOk session_id s events
        = (trackResults config session_id s events).map Except.ok := by
  intro events
  induction events with
  | nil => intro s _; rfl
  | cons e rest ih =>
      intro s hev
      have he := hev e (List.mem_cons_self e rest)
      have h := track_usageRun_ok config hc e.now hasRedis redisOk s session_id e.model
        e.input_tokens e.output_tokens he.1 he.2
      simp only [trackResultsRun, trackResults, List.map_cons, h]
      exact congrArg (List.cons _) (ih _ (fun e' he' => hev e' (List.mem_cons_of_mem e he')))

theorem track_usage_cost_step (config : CostProtectionConfig) (now : ℚ) (s : TrackerState)
    (session_id model : String) (input_tokens output_tokens : ℤ) :
    ((track_usage config now s session_id model input_tokens output_tokens).1.session_costs
        session_id
      = some ((track_usage config now s session_id model input_tokens
          output_tokens).2.session_cost)) ∧
    ((track_usage config now s session_id model input_tokens output_tokens).2.session_cost
      = (s.session_costs session_id).getD 0
        + calculate_cost config model input_tokens output_tokens) := by
  constructor
  · simp [track_usage]
  · rfl

theorem trackResults_cost_lb (config : CostProtectionConfig) (hc : NonnegRates config)
    (session_id : String) :
    ∀ (events : List TrackEvent) (s : TrackerState),
      (∀ e ∈ events, 0 ≤ e.input_tokens ∧ 0 ≤ e.output_tokens) →
      ∀ r ∈ trackResults config session_id s events,
        (s.session_costs session_id).getD 0 ≤ r.session_cost := by
  intro events
  induction events with
  | nil =>
      intro s _ r hr
      simp [trackResults] at hr
  | cons e rest ih =>
      intro s hev r hr
      have he := hev e (List.mem_cons_self e rest)
      have hcost : 0 ≤ calculate_cost config e.model e.input_tokens e.output_tokens :=
        calculate_cost_nonneg config hc e.model e.input_tokens e.output_tokens he.1 he.2
      set p := track_usage config e.now s session_id e.model e.input_tokens e.output_tokens
        with hp
      have hstep := track_usage_cost_step config e.now s session_id e.model
        e.input_tokens e.output_tokens
      have hhead : (s.session_costs session_id).getD 0 ≤ p.2.session_cost := by
        rw [← hp] at hstep
        rw [hstep.2]
        exact le_add_of_nonneg_right hcost
      rcases List.mem_cons.mp hr with hr | hr
      · rw [hr]; exact hhead
      · have htail := ih p.1 (fun e' he' => hev e' (List.mem_cons_of_mem e he')) r hr
        have : (p.1.session_costs session_id).getD 0 = p.2.session_cost := by
          rw [← hp] at hstep
          rw [hstep.1]
          rfl
        rw [this] at htail
        exact le_trans hhead htail

theorem trackResults_pairwise_le (config : CostProtectionConfig) (hc : NonnegRates config)
    (session_id : String) :
    ∀ (events : List TrackEvent) (s : TrackerState),
      (∀ e ∈ events, 0 ≤ e.input_tokens ∧ 0 ≤ e.output_tokens) →
      (trackResults config session_id s events).Pairwise
        (fun a b => a.session_cost ≤ b.session_cost) := by
  intro events
  induction events with
  | nil => intro s _; simp [trackResults]
  | cons e rest ih =>
      intro s hev
      set p := track_usage config e.now s session_id e.model e.input_tokens e.output_tokens
        with hp
      have hstep := track_usage_cost_step config e.now s session_id e.model
        e.input_tokens e.output_tokens
      rw [← hp] at hstep
      have hevt : ∀ e' ∈ rest, 0 ≤ e'.input_tokens ∧ 0 ≤ e'.output_tokens :=
        fun e' he' => hev e' (List.mem_cons_of_mem e he')
      refine List.Pairwise.cons ?_ (ih p.1 hevt)
      intro b hb
      have := trackResults_cost_lb config hc session_id rest p.1 hevt b hb
      have hcur : (p.1.session_costs session_id).getD 0 = p.2.session_cost := by
        rw [hstep.1]; rfl
      rw [hcur] at this
      exact this

theorem check_budget_false_of_ge (config : CostProtectionConfig) (now : ℚ)
    (s : TrackerState) (session_id : String) (current_cost : ℚ)
    (h : config.max_session_cost_usd ≤ current_cost) :
    (check_budget config now s session_id current_cost).budget_ok = false := by
  have hd : decide (current_cost < config.max_session_cost_usd) = false :=
    decide_eq_false (not_lt.mpr h)
  simp [check_budget, hd]

theorem trackResults_budget_false (config : CostProtectionConfig) (session_id : String) :
    ∀ (events : List TrackEvent) (s : TrackerState),
      ∀ r ∈ trackResults config session_id s events,
        config.max_session_cost_usd ≤ r.session_cost → r.status.budget_ok = false := by
  intro events
  induction events with
  | nil =>
      intro s r hr
      simp [trackResults] at hr
  | cons e rest ih =>
      intro s r hr hge
      rcases List.mem_cons.mp hr with hr | hr
      · subst hr
        exact check_budget_false_of_ge config e.now _ session_id _ hge
      · exact ih _ r hr hge

/-- C3 counterexample, tracing the raising path of the code: with the
default configuration and a freshly started session `"s"`, the call
(gpt-5, 600000, 0) returns session cost 6 with verdict false (cost
reached the 5 USD cap). A second call (gpt-5, -600000, 0) computes the
negative cost -6, stores the decreased cumulative cost 0 in the ledger
(line 235 runs first), and then raises `ValueError` from the metric
increment of the negative amount — so the stored cumulative cost is
not monotonically non-decreasing. A third call (gpt-5, 0, 0) then
completes normally and returns verdict true, so the verdict does not
stay false on subsequent calls after the call that returned false. -/
theorem track_usage_monotonicity_counterexample :
    ((track_usageRun defaultConfig 0 true true (start_session 0 true initState "s").1
        "s" "gpt-5" 600000 0).2.map (fun r => (r.session_cost, r.status.budget_ok))
      = Except.ok ((6 : ℚ), false)) ∧
    ((track_usageRun defaultConfig 0 true true (start_session 0 true initState "s").1
        "s" "gpt-5" 600000 0).1.session_costs "s" = some 6) ∧
    ((track_usageRun defaultConfig 0 true true
        (track_usageRun defaultConfig 0 true true (start_session 0 true initState "s").1
          "s" "gpt-5" 600000 0).1
        "s" "gpt-5" (-600000) 0).2
      = Except.error "ValueError: Counters can only be incremented by non-negative amounts.") ∧
    ((track_usageRun defaultConfig 0 true true
        (track_usageRun defaultConfig 0 true true (start_session 0 true initState "s").1
          "s" "gpt-5" 600000 0).1
        "s" "gpt-5" (-600000) 0).1.session_costs "s" = some 0) ∧
    ((track_usageRun defaultConfig 0 true true
        (track_usageRun defaultConfig 0 true true
          (track_usageRun defaultConfig 0 true true (start_session 0 true initState "s").1
            "s" "gpt-5" 600000 0).1
          "s" "gpt-5" (-600000) 0).1
        "s" "gpt-5" 0 0).2.map (fun r => (r.session_cost, r.status.budget_ok))
      = Except.ok ((0 : ℚ), true)) := by
  refine ⟨?_, ?_, ?_, ?_, ?_⟩ <;>
    norm_num [track_usageRun, counterInc, caught, redisCall, check_budget, calculate_cost,
      modelRates, defaultConfig, start_session, initState, get_warnings, Except.map]

/-- C3 amended: restricted to usage events with non-negative token
counts (and non-negative configured rates), every `track_usage` call
of the history completes without raising — the fallible run returns
`Except.ok` of exactly the pure result sequence, whatever the Redis
situation — and over that result sequence the per-session cumulative
cost is monotonically non-decreasing, and once a call's cumulative
cost has reached `max_session_cost_usd` — which forces its verdict
false — every later call in the sequence returns a false verdict. -/
theorem track_usage_monotone_amended (config : CostProtectionConfig)
    (hc : NonnegRates config) (s : TrackerState) (session_id : String)
    (events : List TrackEvent)
    (hev : ∀ e ∈ events, 0 ≤ e.input_tokens ∧ 0 ≤ e.output_tokens) :
    (∀ hasRedis redisOk : Bool,
      trackResultsRun config hasRedis redisOk session_id s events
        = (trackResults config session_id s events).map Except.ok) ∧
    ((trackResults config session_id s events).Pairwise
      (fun a b => a.session_cost ≤ b.session_cost)) ∧
    ((trackResults config session_id s events).Pairwise
      (fun a b => config.max_session_cost_usd ≤ a.session_cost →
        b.status.budget_ok = false)) := by
  have hmono := trackResults_pairwise_le config hc session_id events s hev
  refine ⟨fun hasRedis redisOk =>
    trackResultsRun_eq config hc hasRedis redisOk session_id events s hev, hmono, ?_⟩
  refine hmono.imp_of_mem ?_
  intro a b _ hb hle hge
  exact trackResults_budget_false config session_id events s b hb (le_trans hge hle)

/-- Witness for C3 (amended) on a concrete two-event history with
non-negative token counts under the default configuration. -/
theorem track_usage_monotone_amended_witness :
    (∀ hasRedis redisOk : Bool,
      trackResultsRun defaultConfig hasRedis redisOk "s" initState
          [⟨0, "gpt-5", 100000, 200000⟩, ⟨1, "gpt-5", 300000, 0⟩]
        = (trackResults defaultConfig "s" initState
            [⟨0, "gpt-5", 100000, 200000⟩, ⟨1, "gpt-5", 300000, 0⟩]).map Except.ok) ∧
    ((trackResults defaultConfig "s" initState
        [⟨0, "gpt-5", 100000, 200000⟩, ⟨1, "gpt-5", 300000, 0⟩]).Pairwise
      (fun a b => a.session_cost ≤ b.session_cost)) ∧
    ((trackResults defaultConfig "s" initState
        [⟨0, "gpt-5", 100000, 200000⟩, ⟨1, "gpt-5", 300000, 0⟩]).Pairwise
      (fun a b => defaultConfig.max_session_cost_usd ≤ a.session_cost →
        b.status.budget_ok = false)) :=
  track_usage_monotone_amended defaultConfig
    ⟨by decide, by decide, by decide, by decide, by decide, by decide⟩ initState "s"
    [⟨0, "gpt-5", 100000, 200000⟩, ⟨1, "gpt-5", 300000, 0⟩] (by decide)

/-- C6 counterexample: `track_usage` does not always return a verdict.
At (gpt-5, -1000000, 0) in the fresh state the body computes the
negative cost -10, mutates the ledger (the cost entry is created with
-10), and then the uncaught `Counter.inc` of the negative amount at
line 242 raises `ValueError`: the call propagates the error and
returns no verdict. -/
theorem track_usage_raises_counterexample :
    ((track_usageRun defaultConfig 0 true true initState "s" "gpt-5" (-1000000) 0).2
      = Except.error "ValueError: Counters can only be incremented by non-negative amounts.") ∧
    ((track_usageRun defaultConfig 0 true true initState "s" "gpt-5"
        (-1000000) 0).1.session_costs "s" = some (-10)) := by
  constructor <;>
    norm_num [track_usageRun, counterInc, calculate_cost, modelRates, defaultConfig, initState]

/-- C6 amended: for non-negative token counts (with non-negative
configured rates), `track_usage` never raises and always returns a
verdict — for every state (session id known or not), whether or not a
Redis client is configured, and whether or not the Redis call fails:
the Redis error is caught inside the body, and the call returns
`Except.ok` of the pure in-memory result, so the in-memory state and
verdict are independent of the Redis outcome. For negative token
counts the call raises from the uncaught metric increments instead. -/
theorem track_usage_never_raises_amended (config : CostProtectionConfig)
    (hc : NonnegRates config) (now : ℚ) (hasRedis redisOk : Bool) (s : TrackerState)
    (session_id model : String) (input_tokens output_tokens : ℤ)
    (hi : 0 ≤ input_tokens) (ho : 0 ≤ output_tokens) :
    track_usageRun config now hasRedis redisOk s session_id model input_tokens output_tokens
      = ((track_usage config now s session_id model input_tokens output_tokens).1,
         Except.ok (track_usage config now s session_id model input_tokens
           output_tokens).2) :=
  track_usageRun_ok config hc now hasRedis redisOk s session_id model
    input_tokens output_tokens hi ho

/-- Witness for C6 (amended) at non-negative token counts for an
unknown session id with a configured but failing Redis client. -/
theorem track_usage_never_raises_amended_witness :
    track_usageRun defaultConfig 0 true false initState "s" "gpt-5" 1000 2000
      = ((track_usage defaultConfig 0 initState "s" "gpt-5" 1000 2000).1,
         Except.ok (track_usage defaultConfig 0 initState "s" "gpt-5" 1000 2000).2) :=
  track_usage_never_raises_amended defaultConfig
    ⟨by decide, by decide, by decide, by decide, by decide, by decide⟩
    0 true false initState "s" "gpt-5" 1000 2000 (by decide) (by decide)

/-- Whether, according to the lifecycle history alone, a session id has
been started and not yet ended. -/
def startActive (session_id : String) (ops : List Op) : Bool :=
  ops.foldl
    (fun b op =>
      match op with
      | Op.start _ i => if i = session_id then true else b
      | Op.finish _ i => if i = session_id then false else b
      | _ => b)
    false

theorem step_start_times_isSome (config : CostProtectionConfig) (session_id : String)
    (s : TrackerState) (op : Op) :
    ((step config s op).session_start_times session_id).isSome
      = (match op with
         | Op.start _ i => if i = session_id then true else
             (s.session_start_times session_id).isSome
         | Op.finish _ i => if i = session_id then false else
             (s.session_start_times session_id).isSome
         | _ => (s.session_start_times session_id).isSome) := by
  cases op with
  | start now i =>
      by_cases hii : i = session_id
      · subst hii
        simp [step, start_session]
      · have : ¬ session_id = i := fun e => hii e.symm
        simp [step, start_session, hii, this]
  | track now i model it ot => rfl
  | finish now i =>
      cases hsi : s.session_start_times i with
      | none =>
          have hnoop : step config s (Op.finish now i) = s := by
            simp only [step]
            rw [end_session_unknown_noop now true s i hsi]
          rw [hnoop]
          by_cases hii : i = session_id
          · subst hii
            simp [hsi]
          · simp [hii]
      | some t0 =>
          by_cases hii : i = session_id
          · subst hii
            simp [step, end_session, hsi]
          · have : ¬ session_id = i := fun e => hii e.symm
            simp [step, end_session, hsi, hii, this]
  | activate now => rfl
  | poll now =>
      simp only [step]
      unfold check_circuit_breaker
      cases s.circuit_breaker_active with
      | false => rfl
      | true =>
          cases s.circuit_breaker_reset_time with
          | none => rfl
          | some t =>
              by_cases hle : t ≤ now
              · simp [hle]
              · simp [hle]

theorem run_start_times_isSome (config : CostProtectionConfig) (session_id : String) :
    ∀ (ops : List Op) (s : TrackerState),
      ((run config s ops).session_start_times session_id).isSome
        = ops.foldl
            (fun b op =>
              match op with
              | Op.start _ i => if i = session_id then true else b
              | Op.finish _ i => if i = session_id then false else b
              | _ => b)
            ((s.session_start_times session_id).isSome) := by
  intro ops
  induction ops with
  | nil => intro s; rfl
  | cons op rest ih =>
      intro s
      show ((run config (step config s op) rest).session_start_times session_id).isSome = _
      rw [ih (step config s op), step_start_times_isSome config session_id s op]
      cases op <;> rfl

/-- C5 counterexample: in the fresh state (no `start_session` ever ran,
so the empty history), the session `"s"` has no ledger entry, yet a
single `track_usage` call for `"s"` creates persisted cost and token
entries for it — contradicting both the exists-iff-started invariant
and the claim that such a call does not create or modify any persisted
ledger entry. -/
theorem session_entry_counterexample :
    startActive "s" [] = false ∧
    initState.session_costs "s" = none ∧
    ((track_usage defaultConfig 0 initState "s" "gpt-5" 1000 2000).1.session_costs "s"
       ≠ initState.session_costs "s") ∧
    ((track_usage defaultConfig 0 initState "s" "gpt-5" 1000 2000).1.session_costs "s").isSome
       = true ∧
    ((track_usage defaultConfig 0 initState "s" "gpt-5" 1000 2000).1.session_tokens "s").isSome
       = true := by
  refine ⟨rfl, rfl, ?_, rfl, rfl⟩
  simp [track_usage, initState]

/-- C5 amended: the exists-iff-started-and-not-ended invariant holds
for the start-time entry of a session (over every operation history
from the fresh state); a `track_usage` call for an id with no ledger
entry still prices and reports the event (its `call_cost` and
`session_cost` equal the computed cost), but it does create cost and
token entries for that id rather than leaving the ledger untouched. -/
theorem session_entry_amended (config : CostProtectionConfig) (ops : List Op)
    (session_id : String) :
    (((run config initState ops).session_start_times session_id).isSome
       = startActive session_id ops) ∧
    (∀ (now : ℚ) (s : TrackerState) (model : String) (input_tokens output_tokens : ℤ),
      s.session_costs session_id = none →
      ((track_usage config now s session_id model input_tokens output_tokens).1.session_costs
          session_id
        = some (calculate_cost config model input_tokens output_tokens)) ∧
      ((track_usage config now s session_id model input_tokens
          output_tokens).1.session_tokens session_id).isSome = true ∧
      ((track_usage config now s session_id model input_tokens output_tokens).2.call_cost
        = calculate_cost config model input_tokens output_tokens) ∧
      ((track_usage config now s session_id model input_tokens output_tokens).2.session_cost
        = calculate_cost config model input_tokens output_tokens)) := by
  constructor
  · rw [run_start_times_isSome config session_id ops initState]
    rfl
  · intro now s model input_tokens output_tokens h
    refine ⟨?_, ?_, rfl, ?_⟩
    · simp [track_usage, h]
    · simp [track_usage]
    · show (s.session_costs session_id).getD 0 + _ = _
      rw [h]
      simp

/-- Witness for C5 (amended) on the history [start "a", track, finish
"a"] and, for the unknown-session branch, the fresh state. -/
theorem session_entry_amended_witness :
    (((run defaultConfig initState
          [Op.start 0 "a", Op.track 1 "a" "gpt-5" 10 20, Op.finish 2 "a"]
        ).session_start_times "a").isSome
       = startActive "a" [Op.start 0 "a", Op.track 1 "a" "gpt-5" 10 20, Op.finish 2 "a"]) ∧
    (((track_usage defaultConfig 0 initState "s" "gpt-5" 1000 2000).1.session_costs "s"
        = some (calculate_cost defaultConfig "gpt-5" 1000 2000)) ∧
     ((track_usage defaultConfig 0 initState "s" "gpt-5" 1000 2000).1.session_tokens
        "s").isSome = true ∧
     ((track_usage defaultConfig 0 initState "s" "gpt-5" 1000 2000).2.call_cost
        = calculate_cost defaultConfig "gpt-5" 1000 2000) ∧
     ((track_usage defaultConfig 0 initState "s" "gpt-5" 1000 2000).2.session_cost
        = calculate_cost defaultConfig "gpt-5" 1000 2000)) :=
  ⟨(session_entry_amended defaultConfig
      [Op.start 0 "a", Op.track 1 "a" "gpt-5" 10 20, Op.finish 2 "a"] "a").1,
   (session_entry_amended defaultConfig [] "s").2 0 initState "gpt-5" 1000 2000 rfl⟩

end CostProtection
